import Mathlib

/-
Shallow embedding of the search-priming core of `SearchPlatAPI.h`
(namespaces `searchapi` / `searchapi::internal`).

Modelling conventions:
- `std::wstring` is modelled as `String`, `wchar_t` as `Char`.
- The OLE DB engine boundary (data source, session, command, `Execute`) is a
  single abstract function `Engine.exec : String → Option Cursor`; `none`
  stands for any failed `HRESULT` thrown by `THROW_IF_FAILED` along that path.
- An `IRowset` is modelled as `Cursor`: its rows, and the optional
  `MSIDXSPROP_WHEREID` extended property (a `DWORD`, modelled as `Nat`;
  `std::to_wstring` on it prints decimal digits, as does `toString : Nat → String`).
- C++ exceptions are modelled by returning the post-state together with an
  `Option Err` (the thrown error, `none` on success) for mutating members, and
  by `Except Err` for pure/observer calls.
- A call through a null `winrt::com_ptr` is undefined behaviour (an access
  violation at run time); it is modelled as the distinguished fault
  `Err.nullCursorAccess`.
-/

namespace SearchPlat

/-- One row of an engine cursor: the item URI plus its property store
(the property store's contents are irrelevant to the claims). -/
structure Row where
  uri : String
  props : List (String × String)
  deriving DecidableEq, Repr

/-- Model of an `IRowset` returned by the engine: its finite row sequence and
the optional `MSIDXSPROP_WHEREID` extended property (`DWORD` reuse token). -/
structure Cursor where
  rows : List Row
  reuseTokenProp : Option Nat
  deriving DecidableEq, Repr

/-- Failure outcomes of the embedded operations. `engineFailure` is any failed
`HRESULT` thrown via `THROW_IF_FAILED` at the engine boundary;
`nullCursorAccess` models the undefined behaviour of calling through a null
`winrt::com_ptr`. `notPrimed` is the error kind named by the spec's taxonomy
(§7); the theorems below settle whether the code ever raises it. -/
inductive Err
  | engineFailure
  | nullCursorAccess
  | notPrimed
  deriving DecidableEq, Repr

/-- The abstract query engine: compiles and executes a SQL text, returning a
cursor, or `none` for any engine failure. -/
structure Engine where
  exec : String → Option Cursor

/-- `std::replace(scope.begin(), scope.end(), L'\\', L'/')`: every backslash
becomes a forward slash (character-wise map over the wide string's contents). -/
def normalizeScope (scope : String) : String :=
  ⟨scope.data.map (fun c => if c = '\\' then '/' else c)⟩

namespace internal

/-- Models the expression `excludedScopes[i].c_str() + L'\''` in the exclusion
loop of `BuildPrimingSqlFromScopes`. `c_str()` is a `const wchar_t*` and
`L'\''` is the wide character U+0027, numeric value 39, so the `+` is pointer
arithmetic: it yields the raw string's suffix starting at character index 39
(and appends no closing quote). When the string is shorter than 38 characters
the pointer runs past the terminator and the behaviour is undefined; the model
returns the (then empty) suffix, and the theorems below only evaluate it on
strings long enough for the C++ behaviour to be defined. -/
def rawSuffixFromQuoteOffset (s : String) : String :=
  ⟨s.data.drop 39⟩

/-- The `for (size_t i = 0; i < includedScopes.size(); ++i)` loop of
`BuildPrimingSqlFromScopes`, lines 55-73: `n` is `includedScopes.size()`, `i`
the loop index, the list argument the scopes not yet processed, and the last
argument the accumulated `queryStr`. -/
def includedScopesLoop (n : Nat) : Nat → List String → String → String
  | _, [], queryStr => queryStr
  | i, includedScope :: rest, queryStr =>
    let scope := normalizeScope includedScope
    let queryStr := if i = 0 then queryStr ++ " (" else queryStr
    let queryStr := queryStr ++ " SCOPE='file:" ++ scope ++ "'"
    let queryStr := if i < n - 1 then queryStr ++ " OR" else queryStr ++ ")"
    includedScopesLoop n (i + 1) rest queryStr

/-- The `for (size_t i = 0; i < excludedScopes.size(); ++i)` loop of
`BuildPrimingSqlFromScopes`, lines 75-85. Note two facts taken verbatim from
the source: the normalized `scope` local is computed but never used (the raw
`excludedScopes[i]` is appended instead), and the appended text is
`excludedScopes[i].c_str() + L'\''` (see `rawSuffixFromQuoteOffset`). -/
def excludedScopesLoop (n : Nat) : Nat → List String → String → String
  | _, [], queryStr => queryStr
  | i, excludedScope :: rest, queryStr =>
    let _scope := normalizeScope excludedScope
    let queryStr := queryStr ++ " SCOPE <> 'file:" ++ rawSuffixFromQuoteOffset excludedScope
    let queryStr := if i < n - 1 then queryStr ++ " AND" else queryStr
    excludedScopesLoop n (i + 1) rest queryStr

/-- `searchapi::internal::BuildPrimingSqlFromScopes`, lines 50-88. -/
def BuildPrimingSqlFromScopes (includedScopes excludedScopes : List String) : String :=
  let queryStr := "SELECT System.ItemUrl FROM SystemIndex WHERE"
  let queryStr := includedScopesLoop includedScopes.length 0 includedScopes queryStr
  excludedScopesLoop excludedScopes.length 0 excludedScopes queryStr

/-- `searchapi::internal::GetReuseWhereIDFromRowset`, lines 90-110: reads the
`MSIDXSPROP_WHEREID` extended property of the rowset; any failed
`QueryInterface`/`GetProperties` (the property not being exposed) throws. -/
def GetReuseWhereIDFromRowset (rowset : Cursor) : Except Err Nat :=
  match rowset.reuseTokenProp with
  | some whereid => .ok whereid
  | none => .error .engineFailure

end internal

/-- `searchapi::ExecuteQuery`, lines 200-222: hands the SQL text to the engine;
every failed step on the data-source/session/command path throws. -/
def ExecuteQuery (e : Engine) (sql : String) : Except Err Cursor :=
  match e.exec sql with
  | some rowset => .ok rowset
  | none => .error .engineFailure

/-- `searchapi::QueryResult`, lines 258-262. -/
structure QueryResult where
  propSet : List (String × String)
  uri : String
  deriving DecidableEq, Repr

/-- `searchapi::FileSearchProviderOptions`, lines 269-274: an empty struct
("TODO, implement"). -/
structure FileSearchProviderOptions where
  deriving DecidableEq, Repr

/-- The member state of `searchapi::FileSearchProvider`, lines 365-367. A
default-constructed provider has a null `m_prefetchRowset` and an empty
`m_prefetchSql`. -/
structure FileSearchProvider where
  m_prefetchRowset : Option Cursor := none
  m_prefetchSql : String := ""
  deriving DecidableEq, Repr

/-- `FileSearchProvider::PrepareForSearch`, lines 302-306. The first statement
assigns `m_prefetchSql`; the second runs `ExecuteQuery`, which may throw, in
which case `m_prefetchRowset` is never assigned. The result is the post-state
paired with the thrown error (`none` on success). -/
def PrepareForSearch (e : Engine) (p : FileSearchProvider)
    (includedScopes excludedScopes : List String) : FileSearchProvider × Option Err :=
  let p := { p with
    m_prefetchSql := internal.BuildPrimingSqlFromScopes includedScopes excludedScopes }
  match ExecuteQuery e p.m_prefetchSql with
  | .ok rowset => ({ p with m_prefetchRowset := some rowset }, none)
  | .error err => (p, some err)

/-- `FileSearchProvider::ExecuteQueryUsingPrimingQuery`, lines 332-338. Calling
`GetReuseWhereIDFromRowset` on the null `m_prefetchRowset` of a
never-successfully-primed provider dereferences a null `com_ptr`
(`Err.nullCursorAccess`). -/
def ExecuteQueryUsingPrimingQuery (e : Engine) (p : FileSearchProvider)
    (searchText : String) : Except Err Cursor :=
  match p.m_prefetchRowset with
  | none => .error .nullCursorAccess
  | some rowset =>
    match internal.GetReuseWhereIDFromRowset rowset with
    | .error err => .error err
    | .ok reuseWhereId =>
      let querySql := p.m_prefetchSql ++ " AND CONTAINS('" ++ searchText ++
        "') AND REUSEWHERE(" ++ toString reuseWhereId ++ ")"
      ExecuteQuery e querySql

/-- `FileSearchProvider::Search`, lines 308-315: executes the reuse query, then
(the marshaling step being an unimplemented stub) returns
`std::vector<QueryResult>()`, the empty vector, discarding the rowset. -/
def Search (e : Engine) (p : FileSearchProvider)
    (searchText : String) : Except Err (List QueryResult) :=
  match ExecuteQueryUsingPrimingQuery e p searchText with
  | .error err => .error err
  | .ok _rowset => .ok []

/-- `FileSearchProvider::SearchWithOptions`, lines 317-324: identical body to
`Search`; the options parameter is unnamed and unused in the source. -/
def SearchWithOptions (e : Engine) (p : FileSearchProvider)
    (searchText : String) (_options : FileSearchProviderOptions) : Except Err (List QueryResult) :=
  match ExecuteQueryUsingPrimingQuery e p searchText with
  | .error err => .error err
  | .ok _rowset => .ok []

/-- The do-while fetch loop of `GetTotalFilesInIndex`, lines 350-360: each pass
fetches up to 1000 rows, adds the returned count to `totalFetched`, and repeats
while the count is positive. (`ULongLongAdd` cannot overflow on `Nat`.) -/
def fetchCountLoop (rows : List Row) (totalFetched : Nat) : Nat :=
  let rowCountReturned := (rows.take 1000).length
  if h : 0 < rowCountReturned then
    fetchCountLoop (rows.drop 1000) (totalFetched + rowCountReturned)
  else
    totalFetched + rowCountReturned
termination_by rows.length
decreasing_by
  have h2 : 0 < (rows.take 1000).length := h
  simp only [List.length_take, List.length_drop, lt_min_iff] at h2 ⊢
  omega

/-- `FileSearchProvider::GetTotalFilesInIndex`, lines 340-363: runs the fixed
unscoped query and counts the rows of its cursor. It is a non-const member
function, so the post-state is returned explicitly; the body assigns no member. -/
def GetTotalFilesInIndex (e : Engine) (p : FileSearchProvider) :
    Except Err Nat × FileSearchProvider :=
  let sql := "SELECT System.ItemUrl FROM SystemIndex WHERE SCOPE='file:'"
  match ExecuteQuery e sql with
  | .ok rowset => (.ok (fetchCountLoop rowset.rows 0), p)
  | .error err => (.error err, p)

/- Shape vocabulary used only in theorem statements (not a source translation):
the inclusion term emitted for one scope, and the " OR" join of such terms. -/

/-- The inclusion term the builder emits for one scope. -/
def scopeTerm (s : String) : String := " SCOPE='file:" ++ normalizeScope s ++ "'"

/-- Joins the given strings with the " OR" separator. -/
def orJoin : List String → String
  | [] => ""
  | [t] => t
  | t :: ts => t ++ " OR" ++ orJoin ts

/- Concrete test data for witnesses and counterexamples. -/

/-- A cursor exposing reuse token 7. -/
def testCursor : Cursor := { rows := [], reuseTokenProp := some 7 }

/-- An engine on which every query succeeds, returning `testCursor`. -/
def okEngine : Engine := { exec := fun _ => some testCursor }

/-- An engine on which every query fails. -/
def failEngine : Engine := { exec := fun _ => none }

/-- The included scopes of the spec's end-to-end scenario. -/
def aliceScopes : List String := ["C:\\Users\\Alice\\Documents", "C:\\Users\\Alice\\Desktop"]

/-- A provider primed earlier with some stale base query and `testCursor`. -/
def stalePrimed : FileSearchProvider :=
  { m_prefetchRowset := some testCursor, m_prefetchSql := "OLDSQL" }

/-- An excluded scope long enough (48 characters) for the pointer arithmetic in
the exclusion loop to stay inside the string buffer; its character index 39
falls inside "Temp", so the emitted suffix is "emp\Cache". -/
def longExcludedScope : String := "C:\\Users\\Alice\\AppData\\Local\\Packages\\Temp\\Cache"

/-- A row for exhibiting that `Search` discards the cursor's rows. -/
def budgetRow : Row :=
  { uri := "file:C:/Users/Alice/Documents/budget.docx", props := [] }

/-- A cursor holding one row and exposing reuse token 5. -/
def budgetCursor : Cursor := { rows := [budgetRow], reuseTokenProp := some 5 }

/-- An engine on which every query succeeds, returning `budgetCursor`. -/
def budgetEngine : Engine := { exec := fun _ => some budgetCursor }

/-- A provider primed with the Documents scope whose priming cursor is
`budgetCursor`. -/
def budgetPrimed : FileSearchProvider :=
  { m_prefetchRowset := some budgetCursor
    m_prefetchSql := internal.BuildPrimingSqlFromScopes ["C:\\Users\\Alice\\Documents"] [] }

/- Theorems. -/

/-- Loop lemma: from index `i ≥ 1` on (so past the iteration that opened the
parenthesis), the inclusion loop appends the remaining " OR"-joined terms and
the closing parenthesis. -/
theorem includedScopesLoop_tail (n : Nat) (rest : List String) :
    ∀ (s : String) (i : Nat) (q : String), 1 ≤ i → i + (s :: rest).length = n →
      internal.includedScopesLoop n i (s :: rest) q =
        q ++ orJoin ((s :: rest).map scopeTerm) ++ ")" := by
  induction rest with
  | nil =>
    intro s i q h1 h2
    have hi0 : ¬ i = 0 := by omega
    have hlt : ¬ i < n - 1 := by simp at h2; omega
    rw [internal.includedScopesLoop.eq_2, if_neg hlt, if_neg hi0,
      internal.includedScopesLoop.eq_1]
    refine String.ext ?_
    simp [orJoin, scopeTerm, String.data_append, List.append_assoc]
  | cons s2 rest ih =>
    intro s i q h1 h2
    have hi0 : ¬ i = 0 := by omega
    have hlt : i < n - 1 := by simp at h2; omega
    have h2a : (i + 1) + (s2 :: rest).length = n := by
      simp only [List.length_cons] at h2 ⊢; omega
    rw [internal.includedScopesLoop.eq_2, if_pos hlt, if_neg hi0,
      ih s2 (i + 1) _ (by omega) h2a]
    refine String.ext ?_
    simp [orJoin, scopeTerm, String.data_append, List.append_assoc]

/-- Shape of the builder's output for a non-empty included list and empty
excluded list, with the leading keyword and the opening parenthesis still as
separate appends. -/
theorem build_included_only (includedScopes : List String) (h : includedScopes ≠ []) :
    internal.BuildPrimingSqlFromScopes includedScopes [] =
      "SELECT System.ItemUrl FROM SystemIndex WHERE" ++ " (" ++
        orJoin (includedScopes.map scopeTerm) ++ ")" := by
  match includedScopes, h with
  | [s], _ =>
    have hlt : ¬ (0 : Nat) < [s].length - 1 := by simp
    simp only [internal.BuildPrimingSqlFromScopes, internal.excludedScopesLoop]
    rw [internal.includedScopesLoop.eq_2, if_neg hlt, if_pos rfl,
      internal.includedScopesLoop.eq_1]
    refine String.ext ?_
    simp [orJoin, scopeTerm, String.data_append, List.append_assoc]
  | s :: s2 :: rest, _ =>
    have hlt : (0 : Nat) < (s :: s2 :: rest).length - 1 := by simp
    simp only [internal.BuildPrimingSqlFromScopes, internal.excludedScopesLoop]
    rw [internal.includedScopesLoop.eq_2, if_pos hlt, if_pos rfl,
      includedScopesLoop_tail ((s :: s2 :: rest).length) rest s2 1 _ (by omega)
        (by simp only [List.length_cons]; omega)]
    refine String.ext ?_
    simp [orJoin, scopeTerm, String.data_append, List.append_assoc]

/-- C5: for every non-empty included scope list and empty excluded scope list,
the builder's output is exactly the projection over SystemIndex with one
parenthesized group holding the " OR"-joined inclusion terms, each scope
backslash-normalized and wrapped as SCOPE='file:...', in input order. -/
theorem included_only_build_shape (includedScopes : List String)
    (h : includedScopes ≠ []) :
    internal.BuildPrimingSqlFromScopes includedScopes [] =
      "SELECT System.ItemUrl FROM SystemIndex WHERE (" ++
        orJoin (includedScopes.map scopeTerm) ++ ")" := by
  rw [build_included_only includedScopes h]
  rw [show ("SELECT System.ItemUrl FROM SystemIndex WHERE" ++ " (" : String) =
    "SELECT System.ItemUrl FROM SystemIndex WHERE (" from rfl]

/-- Witness for C5, the spec's end-to-end scenario: the two Alice scopes
produce exactly the literal query the spec displays. -/
theorem included_only_build_shape_witness :
    internal.BuildPrimingSqlFromScopes aliceScopes [] =
      "SELECT System.ItemUrl FROM SystemIndex WHERE ( SCOPE='file:C:/Users/Alice/Documents' OR SCOPE='file:C:/Users/Alice/Desktop')" :=
  (included_only_build_shape aliceScopes (by decide)).trans (by decide)

/-- C1: after a `PrepareForSearch` that succeeded with base query built from
the given scopes, and whose priming cursor exposes reuse token `T`, a search
for any text composes and hands to the engine exactly the base query followed
by " AND CONTAINS('<text>') AND REUSEWHERE(<T printed in decimal>)". -/
theorem reuse_query_composition_after_successful_prepare
    (e : Engine) (p0 p : FileSearchProvider) (includedScopes excludedScopes : List String)
    (cur : Cursor) (T : Nat) (searchText : String)
    (hprep : PrepareForSearch e p0 includedScopes excludedScopes = (p, none))
    (hcur : p.m_prefetchRowset = some cur)
    (htok : cur.reuseTokenProp = some T) :
    ExecuteQueryUsingPrimingQuery e p searchText =
      ExecuteQuery e (internal.BuildPrimingSqlFromScopes includedScopes excludedScopes ++
        " AND CONTAINS('" ++ searchText ++ "') AND REUSEWHERE(" ++ toString T ++ ")") := by
  simp only [PrepareForSearch] at hprep
  cases hexec : ExecuteQuery e
      (internal.BuildPrimingSqlFromScopes includedScopes excludedScopes) with
  | error err =>
    rw [hexec] at hprep
    simp at hprep
  | ok rowset =>
    rw [hexec] at hprep
    simp only [Prod.mk.injEq] at hprep
    obtain ⟨hp, -⟩ := hprep
    subst hp
    simp only [ExecuteQueryUsingPrimingQuery, internal.GetReuseWhereIDFromRowset] at hcur ⊢
    simp only [Option.some.injEq] at hcur
    subst hcur
    rw [htok]

/-- Witness for C1: prepare over the Alice scopes on an engine whose cursor
carries reuse token 7, then search for "budget report". -/
theorem reuse_query_composition_witness :
    ExecuteQueryUsingPrimingQuery okEngine
        (PrepareForSearch okEngine {} aliceScopes []).1 "budget report" =
      ExecuteQuery okEngine (internal.BuildPrimingSqlFromScopes aliceScopes [] ++
        " AND CONTAINS('" ++ "budget report" ++ "') AND REUSEWHERE(" ++ toString 7 ++ ")") :=
  reuse_query_composition_after_successful_prepare okEngine {} _ aliceScopes []
    testCursor 7 "budget report" (by decide) (by decide) (by decide)

/-- Counterexample to C2: on an engine whose call fails, re-preparing a
previously primed provider propagates the failure but does NOT leave the
session as it was, since the stored base query string was already overwritten
before the engine call. -/
theorem prepare_failure_partial_overwrite_counterexample :
    (PrepareForSearch failEngine stalePrimed ["C:\\Data"] []).2 =
      some Err.engineFailure ∧
    (PrepareForSearch failEngine stalePrimed ["C:\\Data"] []).1.m_prefetchSql ≠
      stalePrimed.m_prefetchSql := by
  decide

/-- C2 (amended): if the engine call of `PrepareForSearch` fails, the failure
propagates and the stored cursor is unchanged, but the stored base query
string has already been overwritten with the newly built base query. -/
theorem prepare_failure_keeps_cursor_overwrites_sql
    (e : Engine) (p : FileSearchProvider) (includedScopes excludedScopes : List String)
    (err : Err)
    (hfail : (PrepareForSearch e p includedScopes excludedScopes).2 = some err) :
    (PrepareForSearch e p includedScopes excludedScopes).1.m_prefetchRowset =
        p.m_prefetchRowset ∧
    (PrepareForSearch e p includedScopes excludedScopes).1.m_prefetchSql =
      internal.BuildPrimingSqlFromScopes includedScopes excludedScopes := by
  simp only [PrepareForSearch] at hfail ⊢
  cases hexec : ExecuteQuery e
      (internal.BuildPrimingSqlFromScopes includedScopes excludedScopes) with
  | error err2 => simp
  | ok rowset => rw [hexec] at hfail; simp at hfail

/-- Witness for C2 (amended), at the counterexample's input. -/
theorem prepare_failure_keeps_cursor_overwrites_sql_witness :
    (PrepareForSearch failEngine stalePrimed ["C:\\Data"] []).1.m_prefetchRowset =
        stalePrimed.m_prefetchRowset ∧
    (PrepareForSearch failEngine stalePrimed ["C:\\Data"] []).1.m_prefetchSql =
      internal.BuildPrimingSqlFromScopes ["C:\\Data"] [] :=
  prepare_failure_keeps_cursor_overwrites_sql failEngine stalePrimed ["C:\\Data"] []
    Err.engineFailure (by decide)

/-- C3 divergence: with a non-empty included list and a non-empty excluded
list, the builder's output places the exclusion text directly after the closing
parenthesis of the inclusion group, with no " AND" connective between them (the
exclusion text itself being the truncated raw suffix, see C6). -/
theorem missing_and_between_include_and_exclude_groups :
    internal.BuildPrimingSqlFromScopes ["C:\\Data"] [longExcludedScope] =
      "SELECT System.ItemUrl FROM SystemIndex WHERE ( SCOPE='file:C:/Data') SCOPE <> 'file:emp\\Cache" := by
  decide

/-- C4 divergence: with both scope lists empty, the builder returns the
projection query with the dangling `WHERE` keyword still at its end. -/
theorem empty_scopes_build_has_trailing_where :
    internal.BuildPrimingSqlFromScopes [] [] =
      "SELECT System.ItemUrl FROM SystemIndex WHERE" := rfl

/-- C6 divergence: the excluded scope embedded in the output is neither
normalized nor quote-wrapped: the emitted text is the raw input's suffix from
character index 39 on (the pointer arithmetic of `c_str() + L'\''`), with its
backslash intact and no closing quote; the normalized, wrapped form the claim
describes does not appear. -/
theorem excluded_scope_embedded_raw_truncated :
    internal.BuildPrimingSqlFromScopes [] [longExcludedScope] =
      "SELECT System.ItemUrl FROM SystemIndex WHERE SCOPE <> 'file:emp\\Cache" ∧
    normalizeScope longExcludedScope =
      "C:/Users/Alice/AppData/Local/Packages/Temp/Cache" ∧
    internal.BuildPrimingSqlFromScopes [] [longExcludedScope] ≠
      "SELECT System.ItemUrl FROM SystemIndex WHERE SCOPE <> 'file:C:/Users/Alice/AppData/Local/Packages/Temp/Cache'" := by
  decide

/-- Counterexample to C7: a search on a never-prepared provider does not fail
with `NotPrimed`; it faults by calling through the null priming cursor. -/
theorem unprimed_search_not_notPrimed_counterexample :
    Search okEngine {} "budget" = .error .nullCursorAccess ∧
    Err.nullCursorAccess ≠ Err.notPrimed :=
  ⟨rfl, by decide⟩

/-- C7 (amended): a search on a provider whose priming cursor is null (as after
construction) dereferences that null cursor — undefined behaviour, modelled as
the `nullCursorAccess` fault — and no call of `Search` ever fails with
`notPrimed` (the code never raises that error kind). -/
theorem unprimed_search_null_cursor_fault (e : Engine) (p : FileSearchProvider)
    (searchText : String) :
    (p.m_prefetchRowset = none → Search e p searchText = .error .nullCursorAccess) ∧
    Search e p searchText ≠ Except.error Err.notPrimed := by
  constructor
  · intro hnone
    simp [Search, ExecuteQueryUsingPrimingQuery, hnone]
  · simp only [Search, ExecuteQueryUsingPrimingQuery, internal.GetReuseWhereIDFromRowset,
      ExecuteQuery]
    cases hr : p.m_prefetchRowset with
    | none => simp
    | some rowset =>
      cases ht : rowset.reuseTokenProp with
      | none => simp [ht]
      | some whereid =>
        cases he : e.exec (p.m_prefetchSql ++ " AND CONTAINS('" ++ searchText ++
            "') AND REUSEWHERE(" ++ toString whereid ++ ")") with
        | none => simp [ht, he]
        | some c => simp [ht, he]

/-- Witness for C7 (amended): a default-constructed provider. -/
theorem unprimed_search_null_cursor_fault_witness :
    Search okEngine {} "budget" = .error .nullCursorAccess ∧
    Search okEngine {} "budget" ≠ Except.error Err.notPrimed :=
  ⟨(unprimed_search_null_cursor_fault okEngine {} "budget").1 rfl,
    (unprimed_search_null_cursor_fault okEngine {} "budget").2⟩

/-- C8 divergence: on a primed provider whose reuse query yields a cursor with
one row, `Search` (and `SearchWithOptions`) still return the empty result
vector — the marshaling step is an unimplemented stub. -/
theorem search_returns_empty_despite_rows :
    ExecuteQueryUsingPrimingQuery budgetEngine budgetPrimed "budget" = .ok budgetCursor ∧
    budgetCursor.rows.length = 1 ∧
    Search budgetEngine budgetPrimed "budget" = .ok [] ∧
    SearchWithOptions budgetEngine budgetPrimed "budget" {} = .ok [] :=
  ⟨rfl, rfl, rfl, rfl⟩

/-- C9: `GetTotalFilesInIndex` leaves the provider's priming-session fields
exactly as they were, and its result does not depend on them. -/
theorem getTotalFilesInIndex_frame_and_independence (e : Engine)
    (p q : FileSearchProvider) :
    (GetTotalFilesInIndex e p).2 = p ∧
    (GetTotalFilesInIndex e p).1 = (GetTotalFilesInIndex e q).1 := by
  simp only [GetTotalFilesInIndex]
  cases ExecuteQuery e "SELECT System.ItemUrl FROM SystemIndex WHERE SCOPE='file:'" <;>
    simp

/-- C10: `SearchWithOptions` and `Search` compose and execute the same reuse
query and return equal results for every options value — the options parameter
has no effect. -/
theorem searchWithOptions_eq_search (e : Engine) (p : FileSearchProvider)
    (searchText : String) (options : FileSearchProviderOptions) :
    SearchWithOptions e p searchText options = Search e p searchText := rfl

end SearchPlat
